import Mathlib

/-!
# UbuntuShape: the item state, its setters and the paint-node update

A shallow embedding of `modules/Ubuntu/Components/plugin/ucubuntushape.cpp`.

* The fields of `UCUbuntuShape` form a record; every setter is a function from
  record to record.  Calls into the host toolkit that leave the fields alone
  (`update()`, signal emission, `connect`/`disconnect`, `setParentItem`,
  `setVisible`, `setImplicitWidth`/`setImplicitHeight`) have no counterpart.
* Pointers are addresses (`Nat`), `NULL` is `none`.  What the code reads through
  a pointer comes from a `Host` snapshot taken at the time of the call.
* `float`/`qreal` arithmetic is read over exact rationals, with the division of `ℚ`
  (rounding, infinities and NaN have no counterpart).
* `quint16`/`QRgb` values are naturals, wrapped explicitly where the code narrows.
-/

namespace UbuntuShape

/-! ## Qt helpers (qrgb.h, qglobal.h) -/

/-- A `QRgb` is an unsigned 32-bit `0xAARRGGBB` value. -/
abbrev QRgb := Nat

def qRgba (r g b a : Nat) : QRgb :=
  ((a &&& 0xff) <<< 24) ||| ((r &&& 0xff) <<< 16) ||| ((g &&& 0xff) <<< 8) ||| (b &&& 0xff)

def qRed (rgb : QRgb) : Nat := (rgb >>> 16) &&& 0xff

def qGreen (rgb : QRgb) : Nat := (rgb >>> 8) &&& 0xff

def qBlue (rgb : QRgb) : Nat := rgb &&& 0xff

def qAlpha (rgb : QRgb) : Nat := rgb >>> 24

/-- The `qMin` template of qglobal.h: `(a < b) ? a : b`. -/
def qMin (a b : ℚ) : ℚ := if a < b then a else b

/-- The `qMax` template of qglobal.h: `(a < b) ? b : a`. -/
def qMax (a b : ℚ) : ℚ := if a < b then b else a

/-- Conversion of a floating value to an integer: the fractional part is discarded. -/
def truncate (q : ℚ) : Int := Int.tdiv q.num q.den

/-- The cast `static_cast<quint16>(v)` of a floating value. -/
def toQuint16 (q : ℚ) : Nat := Int.toNat (truncate q % 65536)

/-- The components of a `QColor` as returned by `red()`, `green()`, `blue()`, `alpha()`. -/
structure QColor where
  red : Nat
  green : Nat
  blue : Nat
  alpha : Nat
deriving DecidableEq, Repr

structure QRectF where
  x : ℚ
  y : ℚ
  width : ℚ
  height : ℚ
deriving DecidableEq

/-! ## Host objects -/

abbrev ItemPtr := Nat
abbrev ProviderPtr := Nat
abbrev TexturePtr := Nat
abbrev ContextPtr := Nat

/-- What the code reads of a source `QSGTexture`. -/
structure QSGTexture where
  textureSize : Int × Int
  normalizedTextureSubRect : QRectF
deriving DecidableEq

/-- A `QVariant` argument: a null object, a `QQuickItem`, or a value that is not an item. -/
inductive QVariant where
  | null
  | item (p : ItemPtr)
  | other
deriving DecidableEq

/-- The cast `qobject_cast<QQuickItem*>(qvariant_cast<QObject*>(v))`. -/
def QVariant.toQuickItem : QVariant → Option ItemPtr
  | .null => none
  | .item p => some p
  | .other => none

/-- The window of the item, as far as `updatePaintNode` uses it. -/
structure QQuickWindow where
  openglContext : Option ContextPtr
  createTextureFromImage : List Nat → Int → Int → Option TexturePtr

/-- A snapshot of the host toolkit at the time of a call. -/
structure Host where
  window : Option QQuickWindow
  width : ℚ
  height : ℚ
  gridUnit : ℚ
  property : ItemPtr → String → Int
  textureProvider : ItemPtr → Option ProviderPtr
  texture : ProviderPtr → Option QSGTexture

/-! ## Declarations of the headers -/

inductive BackgroundMode where
  | BackgroundColor
  | VerticalGradient
deriving DecidableEq, Repr

inductive Radius where
  | SmallRadius
  | MediumRadius
deriving DecidableEq, Repr

inductive Border where
  | RawBorder
  | IdleBorder
  | PressedBorder
deriving DecidableEq, Repr

inductive HAlignment where
  | AlignLeft
  | AlignHCenter
  | AlignRight
deriving DecidableEq, Repr

inductive VAlignment where
  | AlignTop
  | AlignVCenter
  | AlignBottom
deriving DecidableEq, Repr

/-- Modelled from the spec: the numeric values of the `HAlignment` enumerators are declared in
`ucubuntushape.h`, which is not part of the sources; they index the table `{ 0, 0.5, 1 }` of
`setVertices` in the order left, centre, right. -/
def HAlignment.toFin : HAlignment → Fin 3
  | .AlignLeft => 0
  | .AlignHCenter => 1
  | .AlignRight => 2

/-- Modelled from the spec: the numeric values of the `VAlignment` enumerators are declared in
`ucubuntushape.h`, which is not part of the sources; they index the table `{ 0, 0.5, 1 }` of
`setVertices` in the order top, centre, bottom. -/
def VAlignment.toFin : VAlignment → Fin 3
  | .AlignTop => 0
  | .AlignVCenter => 1
  | .AlignBottom => 2

/-- The bit masks of the private flags enumeration of `ucubuntushape.h`, which is not part of
the sources: they are a parameter of every function that tests or sets a flag. -/
structure Flags where
  GradientColorSetFlag : Nat
  StretchedFlag : Nat
  BackgroundApiSetFlag : Nat
  SourceApiSetFlag : Nat
deriving DecidableEq, Repr

/-- The masks are non-empty and pairwise disjoint. -/
def Flags.Valid (F : Flags) : Prop :=
  F.GradientColorSetFlag ≠ 0 ∧ F.StretchedFlag ≠ 0 ∧
  F.BackgroundApiSetFlag ≠ 0 ∧ F.SourceApiSetFlag ≠ 0 ∧
  F.GradientColorSetFlag &&& F.StretchedFlag = 0 ∧
  F.GradientColorSetFlag &&& F.BackgroundApiSetFlag = 0 ∧
  F.GradientColorSetFlag &&& F.SourceApiSetFlag = 0 ∧
  F.StretchedFlag &&& F.BackgroundApiSetFlag = 0 ∧
  F.StretchedFlag &&& F.SourceApiSetFlag = 0 ∧
  F.BackgroundApiSetFlag &&& F.SourceApiSetFlag = 0

instance (F : Flags) : Decidable F.Valid := by
  unfold Flags.Valid
  infer_instance

/-- One assignment of the masks: four distinct bits. -/
def Flags.bits : Flags :=
  { GradientColorSetFlag := 1 <<< 0
    StretchedFlag := 1 <<< 1
    BackgroundApiSetFlag := 1 <<< 2
    SourceApiSetFlag := 1 <<< 3 }

/-- The `TextureData` record of `ucubuntushapetexture.h`, which is not part of the sources. -/
structure TextureData where
  data : List Nat
  width : Int
  height : Int
  smallRadius : ℚ
  mediumRadius : ℚ
  gridUnit : ℚ
  coordinate : Nat → Nat → ℚ × ℚ

/-- The two shape textures of `ucubuntushapetexture.h`, a parameter of `updatePaintNode`. -/
structure ShapeTextureData where
  shapeTextureHigh : TextureData
  shapeTextureLow : TextureData

/-- Qt::AlignLeft, Qt::AlignRight, Qt::AlignTop, Qt::AlignBottom of qnamespace.h. -/
def Qt.AlignLeft : Int := 0x0001
def Qt.AlignRight : Int := 0x0002
def Qt.AlignTop : Int := 0x0020
def Qt.AlignBottom : Int := 0x0040

/-- QQuickImage::PreserveAspectCrop, the third enumerator of `QQuickImage::FillMode`. -/
def QQuickImage.PreserveAspectCrop : Int := 2

/-! ## Scene graph material and node -/

inductive Filtering where
  | Nearest
  | Linear
deriving DecidableEq, Repr

def TexturedFlag : Nat := 1 <<< 0
def OverlaidFlag : Nat := 1 <<< 1

/-- The record `ShapeMaterial::Data`. -/
structure Data where
  shapeTexture : Option TexturePtr
  sourceTextureProvider : Option ProviderPtr
  backgroundColor : QRgb
  secondaryBackgroundColor : QRgb
  overlayColor : QRgb
  atlasTransform : List Nat
  overlaySteps : List Nat
  shapeTextureFiltering : Filtering
  flags : Nat
deriving DecidableEq

/-- The record `ShapeNode::Vertex` (without its padding). -/
structure Vertex where
  position : ℚ × ℚ
  shapeCoordinate : ℚ × ℚ
  quadCoordinate : ℚ × ℚ
deriving DecidableEq

/-- A `ShapeNode`: its material data and the vertices of its geometry. -/
structure ShapeNode where
  material : Data
  vertices : List Vertex
deriving DecidableEq

/-- The number of vertices `shapeMesh.vertexCount`. -/
def shapeMesh.vertexCount : Nat := 16

/-- The node built by `ShapeNode::ShapeNode`: value-initialised material data and a geometry of
`shapeMesh.vertexCount` vertices. -/
def ShapeNode.new : ShapeNode :=
  { material :=
      { shapeTexture := none, sourceTextureProvider := none, backgroundColor := 0
        secondaryBackgroundColor := 0, overlayColor := 0, atlasTransform := [0, 0, 0, 0]
        overlaySteps := [0, 0, 0, 0], shapeTextureFiltering := Filtering.Nearest, flags := 0 }
    vertices := List.replicate shapeMesh.vertexCount ⟨(0, 0), (0, 0), (0, 0)⟩ }

/-! ## The item -/

/-- The fields of a `UCUbuntuShape`. -/
structure UCUbuntuShape where
  image_ : Option ItemPtr
  source_ : Option ItemPtr
  sourceTextureProvider_ : Option ProviderPtr
  color_ : QRgb
  gradientColor_ : QRgb
  backgroundColor_ : QRgb
  secondaryBackgroundColor_ : QRgb
  backgroundMode_ : BackgroundMode
  radiusString_ : String
  radius_ : Radius
  borderSource_ : String
  border_ : Border
  hAlignment_ : HAlignment
  vAlignment_ : VAlignment
  gridUnit_ : ℚ
  overlayX_ : Nat
  overlayY_ : Nat
  overlayWidth_ : Nat
  overlayHeight_ : Nat
  overlayColor_ : QRgb
  flags_ : Nat
deriving DecidableEq

/-- The constructor `UCUbuntuShape::UCUbuntuShape`. -/
def UCUbuntuShape.init (F : Flags) (h : Host) : UCUbuntuShape :=
  { image_ := none
    source_ := none
    sourceTextureProvider_ := none
    color_ := qRgba 0 0 0 0
    gradientColor_ := qRgba 0 0 0 0
    backgroundColor_ := qRgba 0 0 0 0
    secondaryBackgroundColor_ := qRgba 0 0 0 0
    backgroundMode_ := BackgroundMode.BackgroundColor
    radiusString_ := "small"
    radius_ := Radius.SmallRadius
    borderSource_ := ""
    border_ := Border.IdleBorder
    hAlignment_ := HAlignment.AlignHCenter
    vAlignment_ := VAlignment.AlignVCenter
    gridUnit_ := h.gridUnit
    overlayX_ := 0
    overlayY_ := 0
    overlayWidth_ := 0
    overlayHeight_ := 0
    overlayColor_ := qRgba 0 0 0 0
    flags_ := F.StretchedFlag }

def UCUbuntuShape.setColor (F : Flags) (s : UCUbuntuShape) (color : QColor) : UCUbuntuShape :=
  let colorRgb := qRgba color.red color.green color.blue color.alpha
  if s.color_ ≠ colorRgb then
    let s1 := { s with color_ := colorRgb }
    -- gradientColor has the same value as color unless it was explicitly set.
    if ¬ (s1.flags_ &&& F.GradientColorSetFlag ≠ 0) then
      { s1 with gradientColor_ := colorRgb }
    else
      s1
  else
    s

def UCUbuntuShape.setGradientColor (F : Flags) (s : UCUbuntuShape) (gradientColor : QColor) :
    UCUbuntuShape :=
  let s1 := { s with flags_ := s.flags_ ||| F.GradientColorSetFlag }
  let gradientColorRgb :=
    qRgba gradientColor.red gradientColor.green gradientColor.blue gradientColor.alpha
  if s1.gradientColor_ ≠ gradientColorRgb then
    { s1 with gradientColor_ := gradientColorRgb }
  else
    s1

def UCUbuntuShape.setRadius (s : UCUbuntuShape) (radius : String) : UCUbuntuShape :=
  if s.radiusString_ ≠ radius then
    { s with
      radiusString_ := radius
      radius_ := if radius = "medium" then Radius.MediumRadius else Radius.SmallRadius }
  else
    s

def UCUbuntuShape.setBorderSource (s : UCUbuntuShape) (borderSource : String) : UCUbuntuShape :=
  if s.borderSource_ ≠ borderSource then
    let border :=
      if borderSource.endsWith "radius_idle.sci" then Border.IdleBorder
      else if borderSource.endsWith "radius_pressed.sci" then Border.PressedBorder
      else Border.RawBorder
    { s with border_ := border, borderSource_ := borderSource }
  else
    s

def UCUbuntuShape.dropImageSupport (F : Flags) (s : UCUbuntuShape) : UCUbuntuShape :=
  let s1 := { s with flags_ := s.flags_ ||| F.SourceApiSetFlag }
  if s1.image_.isSome then
    { s1 with image_ := none }
  else
    s1

def UCUbuntuShape.setSource (F : Flags) (s : UCUbuntuShape) (source : QVariant) : UCUbuntuShape :=
  let newSource := source.toQuickItem
  if s.source_ ≠ newSource then
    let s1 := UCUbuntuShape.dropImageSupport F s
    { s1 with source_ := newSource }
  else
    s

def UCUbuntuShape.setOverlayGeometry (s : UCUbuntuShape) (overlayGeometry : QRectF) :
    UCUbuntuShape :=
  -- Crop rectangle and convert to 16-bit unsigned integer.
  let x := qMax 0 (qMin 1 overlayGeometry.x)
  let width0 := qMax 0 overlayGeometry.width
  let width := if x + width0 > 1 then width0 + (1 - (x + width0)) else width0
  let y := qMax 0 (qMin 1 overlayGeometry.y)
  let height0 := qMax 0 overlayGeometry.height
  let height := if y + height0 > 1 then height0 + (1 - (y + height0)) else height0
  let overlayX := toQuint16 (x * 0xffff)
  let overlayY := toQuint16 (y * 0xffff)
  let overlayWidth := toQuint16 (width * 0xffff)
  let overlayHeight := toQuint16 (height * 0xffff)
  if s.overlayX_ ≠ overlayX ∨ s.overlayY_ ≠ overlayY ∨
      s.overlayWidth_ ≠ overlayWidth ∨ s.overlayHeight_ ≠ overlayHeight then
    { s with
      overlayX_ := overlayX
      overlayY_ := overlayY
      overlayWidth_ := overlayWidth
      overlayHeight_ := overlayHeight }
  else
    s

def UCUbuntuShape.setOverlayColor (s : UCUbuntuShape) (overlayColor : QColor) : UCUbuntuShape :=
  let overlayColorRgb :=
    qRgba overlayColor.red overlayColor.green overlayColor.blue overlayColor.alpha
  if s.overlayColor_ ≠ overlayColorRgb then
    { s with overlayColor_ := overlayColorRgb }
  else
    s

def UCUbuntuShape.setBackgroundColor (F : Flags) (s : UCUbuntuShape) (backgroundColor : QColor) :
    UCUbuntuShape :=
  let s1 := { s with flags_ := s.flags_ ||| F.BackgroundApiSetFlag }
  let backgroundColorRgb :=
    qRgba backgroundColor.red backgroundColor.green backgroundColor.blue backgroundColor.alpha
  if s1.backgroundColor_ ≠ backgroundColorRgb then
    { s1 with backgroundColor_ := backgroundColorRgb }
  else
    s1

def UCUbuntuShape.setSecondaryBackgroundColor (F : Flags) (s : UCUbuntuShape)
    (secondaryBackgroundColor : QColor) : UCUbuntuShape :=
  let s1 := { s with flags_ := s.flags_ ||| F.BackgroundApiSetFlag }
  let secondaryBackgroundColorRgb :=
    qRgba secondaryBackgroundColor.red secondaryBackgroundColor.green
      secondaryBackgroundColor.blue secondaryBackgroundColor.alpha
  if s1.secondaryBackgroundColor_ ≠ secondaryBackgroundColorRgb then
    { s1 with secondaryBackgroundColor_ := secondaryBackgroundColorRgb }
  else
    s1

def UCUbuntuShape.setBackgroundMode (F : Flags) (s : UCUbuntuShape)
    (backgroundMode : BackgroundMode) : UCUbuntuShape :=
  let s1 := { s with flags_ := s.flags_ ||| F.BackgroundApiSetFlag }
  if s1.backgroundMode_ ≠ backgroundMode then
    { s1 with backgroundMode_ := backgroundMode }
  else
    s1

def UCUbuntuShape.setStretched (F : Flags) (s : UCUbuntuShape) (stretched : Bool) :
    UCUbuntuShape :=
  if decide (s.flags_ &&& F.StretchedFlag ≠ 0) ≠ stretched then
    if stretched then
      { s with flags_ := s.flags_ ||| F.StretchedFlag }
    else
      { s with flags_ := Nat.ldiff s.flags_ F.StretchedFlag }
  else
    s

def UCUbuntuShape.setHorizontalAlignment (s : UCUbuntuShape) (hAlignment : HAlignment) :
    UCUbuntuShape :=
  if s.hAlignment_ ≠ hAlignment then
    { s with hAlignment_ := hAlignment }
  else
    s

def UCUbuntuShape.setVerticalAlignment (s : UCUbuntuShape) (vAlignment : VAlignment) :
    UCUbuntuShape :=
  if s.vAlignment_ ≠ vAlignment then
    { s with vAlignment_ := vAlignment }
  else
    s

def UCUbuntuShape.updateFromImageProperties (F : Flags) (h : Host) (s : UCUbuntuShape)
    (image : ItemPtr) : UCUbuntuShape :=
  -- UCUbuntuShape::stretched depends on Image::fillMode.
  let fillMode := h.property image "fillMode"
  let s1 :=
    if fillMode = QQuickImage.PreserveAspectCrop then
      UCUbuntuShape.setStretched F s false
    else
      UCUbuntuShape.setStretched F s true
  -- UCUbuntuShape::horizontalAlignment depends on Image::horizontalAlignment.
  let imageHorizontalAlignment := h.property image "horizontalAlignment"
  let hAlignment :=
    if imageHorizontalAlignment = Qt.AlignLeft then HAlignment.AlignLeft
    else if imageHorizontalAlignment = Qt.AlignRight then HAlignment.AlignRight
    else HAlignment.AlignHCenter
  let s2 := UCUbuntuShape.setHorizontalAlignment s1 hAlignment
  -- UCUbuntuShape::verticalAlignment depends on Image::verticalAlignment.
  let imageVerticalAlignment := h.property image "verticalAlignment"
  let vAlignment :=
    if imageVerticalAlignment = Qt.AlignTop then VAlignment.AlignTop
    else if imageVerticalAlignment = Qt.AlignBottom then VAlignment.AlignBottom
    else VAlignment.AlignVCenter
  UCUbuntuShape.setVerticalAlignment s2 vAlignment

def UCUbuntuShape.setImage (F : Flags) (h : Host) (s : UCUbuntuShape) (image : QVariant) :
    UCUbuntuShape :=
  let newImage := image.toQuickItem
  if s.image_ ≠ newImage then
    let s1 :=
      if ¬ (s.flags_ &&& F.SourceApiSetFlag ≠ 0) then
        match newImage with
        | some p => UCUbuntuShape.updateFromImageProperties F h s p  -- Watch for property changes.
        | none => s
      else
        s
    { s1 with image_ := newImage }
  else
    s

def UCUbuntuShape.onImagePropertiesChanged (F : Flags) (h : Host) (s : UCUbuntuShape)
    (sender : ItemPtr) : UCUbuntuShape :=
  UCUbuntuShape.updateFromImageProperties F h s sender

def UCUbuntuShape.gridUnitChanged (h : Host) (s : UCUbuntuShape) : UCUbuntuShape :=
  { s with gridUnit_ := h.gridUnit }

def UCUbuntuShape.providerDestroyed (s : UCUbuntuShape) : UCUbuntuShape :=
  { s with sourceTextureProvider_ := none }

/-! ## The mesh -/

/-- The table `factors` of `setVertices`. -/
def factors : Fin 3 → ℚ
  | 0 => 0
  | 1 => 1 / 2
  | 2 => 1

/-- The six local variables of `setVertices` that hold texture coordinates. -/
structure QuadCoordinates where
  topCoordinate : ℚ
  bottomCoordinate : ℚ
  leftCoordinate : ℚ
  rightCoordinate : ℚ
  radiusCoordinateWidth : ℚ
  radiusCoordinateHeight : ℚ
deriving DecidableEq

/-- The texture looked up at the start of `setVertices`:
`source ? source->textureProvider() : NULL`, then `provider ? provider->texture() : NULL`. -/
def setVertices.texture (h : Host) (source : Option ItemPtr) : Option QSGTexture :=
  let provider := source.bind h.textureProvider
  provider.bind h.texture

/-- The first part of `ShapeNode::setVertices`: the texture coordinates of the quad. -/
def setVertices.coordinates (h : Host) (width height radius : ℚ) (source : Option ItemPtr)
    (stretched : Bool) (hAlignment : HAlignment) (vAlignment : VAlignment) : QuadCoordinates :=
  match stretched, setVertices.texture h source with
  | false, some texture =>
    -- Preserve source image aspect ratio cropping areas exceeding destination rectangle.
    let srcSize := texture.textureSize
    let srcRatio : ℚ := (srcSize.1 : ℚ) / (srcSize.2 : ℚ)
    let dstRatio : ℚ := width / height
    if dstRatio ≤ srcRatio then
      let inCoordinateSize := dstRatio / srcRatio
      let outCoordinateSize := 1 - inCoordinateSize
      { topCoordinate := 0
        bottomCoordinate := 1
        leftCoordinate := outCoordinateSize * factors hAlignment.toFin
        rightCoordinate := 1 - (outCoordinateSize * (1 - factors hAlignment.toFin))
        radiusCoordinateHeight := radius / height
        radiusCoordinateWidth := (radius / width) * inCoordinateSize }
    else
      let inCoordinateSize := srcRatio / dstRatio
      let outCoordinateSize := 1 - inCoordinateSize
      { topCoordinate := outCoordinateSize * factors vAlignment.toFin
        bottomCoordinate := 1 - (outCoordinateSize * (1 - factors vAlignment.toFin))
        leftCoordinate := 0
        rightCoordinate := 1
        radiusCoordinateHeight := (radius / height) * inCoordinateSize
        radiusCoordinateWidth := radius / width }
  | _, _ =>
    -- Don't preserve source image aspect ratio stretching it in destination rectangle.
    { topCoordinate := 0
      bottomCoordinate := 1
      leftCoordinate := 0
      rightCoordinate := 1
      radiusCoordinateHeight := radius / height
      radiusCoordinateWidth := radius / width }

/-- The function `ShapeNode::setVertices`: the sixteen vertices it writes, in index order. -/
def setVertices (h : Host) (width height radius : ℚ) (source : Option ItemPtr)
    (stretched : Bool) (hAlignment : HAlignment) (vAlignment : VAlignment)
    (shapeCoordinate : Nat → ℚ × ℚ) : List Vertex :=
  let q := setVertices.coordinates h width height radius source stretched hAlignment vAlignment
  [ -- Set top row of 4 vertices.
    { position := (0, 0), shapeCoordinate := shapeCoordinate 0
      quadCoordinate := (q.leftCoordinate, q.topCoordinate) },
    { position := (radius, 0), shapeCoordinate := shapeCoordinate 1
      quadCoordinate := (q.leftCoordinate + q.radiusCoordinateWidth, q.topCoordinate) },
    { position := (width - radius, 0), shapeCoordinate := shapeCoordinate 2
      quadCoordinate := (q.rightCoordinate - q.radiusCoordinateWidth, q.topCoordinate) },
    { position := (width, 0), shapeCoordinate := shapeCoordinate 3
      quadCoordinate := (q.rightCoordinate, q.topCoordinate) },
    -- Set middle-top row of 4 vertices.
    { position := (0, radius), shapeCoordinate := shapeCoordinate 4
      quadCoordinate := (q.leftCoordinate, q.topCoordinate + q.radiusCoordinateHeight) },
    { position := (radius, radius), shapeCoordinate := shapeCoordinate 5
      quadCoordinate :=
        (q.leftCoordinate + q.radiusCoordinateWidth, q.topCoordinate + q.radiusCoordinateHeight) },
    { position := (width - radius, radius), shapeCoordinate := shapeCoordinate 6
      quadCoordinate :=
        (q.rightCoordinate - q.radiusCoordinateWidth, q.topCoordinate + q.radiusCoordinateHeight) },
    { position := (width, radius), shapeCoordinate := shapeCoordinate 7
      quadCoordinate := (q.rightCoordinate, q.topCoordinate + q.radiusCoordinateHeight) },
    -- Set middle-bottom row of 4 vertices.
    { position := (0, height - radius), shapeCoordinate := shapeCoordinate 8
      quadCoordinate := (q.leftCoordinate, q.bottomCoordinate - q.radiusCoordinateHeight) },
    { position := (radius, height - radius), shapeCoordinate := shapeCoordinate 9
      quadCoordinate :=
        (q.leftCoordinate + q.radiusCoordinateWidth,
          q.bottomCoordinate - q.radiusCoordinateHeight) },
    { position := (width - radius, height - radius), shapeCoordinate := shapeCoordinate 10
      quadCoordinate :=
        (q.rightCoordinate - q.radiusCoordinateWidth,
          q.bottomCoordinate - q.radiusCoordinateHeight) },
    { position := (width, height - radius), shapeCoordinate := shapeCoordinate 11
      quadCoordinate := (q.rightCoordinate, q.bottomCoordinate - q.radiusCoordinateHeight) },
    -- Set bottom row of 4 vertices.
    { position := (0, height), shapeCoordinate := shapeCoordinate 12
      quadCoordinate := (q.leftCoordinate, q.bottomCoordinate) },
    { position := (radius, height), shapeCoordinate := shapeCoordinate 13
      quadCoordinate := (q.leftCoordinate + q.radiusCoordinateWidth, q.bottomCoordinate) },
    { position := (width - radius, height), shapeCoordinate := shapeCoordinate 14
      quadCoordinate := (q.rightCoordinate - q.radiusCoordinateWidth, q.bottomCoordinate) },
    { position := (width, height), shapeCoordinate := shapeCoordinate 15
      quadCoordinate := (q.rightCoordinate, q.bottomCoordinate) } ]

/-! ## The paint node -/

structure ShapeTextures where
  high : Option TexturePtr
  low : Option TexturePtr
deriving DecidableEq

/-- The table `shapeTexturesHash`, keyed by OpenGL context. -/
abbrev ShapeTexturesHash := ContextPtr → Option ShapeTextures

/-- Threshold in grid unit defining the texture quality to be used. -/
def lowHighTextureThreshold : ℚ := 11

/-- The colour with its red, green and blue scaled by its alpha, as `updatePaintNode` computes
it for every colour it writes to the material. -/
def premultiplied (c : QRgb) : QRgb :=
  let a := qAlpha c
  qRgba ((qRed c * a) / 255) ((qGreen c * a) / 255) ((qBlue c * a) / 255) a

/-- The item `updatePaintNode` takes its texture from:
`(flags_ & SourceApiSetFlag) ? source_ : image_`. -/
def updatePaintNode.source (F : Flags) (s : UCUbuntuShape) : Option ItemPtr :=
  if s.flags_ &&& F.SourceApiSetFlag ≠ 0 then s.source_ else s.image_

/-- The entry of `shapeTexturesHash` for the context after the first step of `updatePaintNode`:
`shapeTexturesHash[openglContext]` (a default entry when there is none), with both textures
created from the window when the high one is missing. -/
def updatePaintNode.shapeTextures (T : ShapeTextureData) (window : QQuickWindow)
    (shapeTexturesHash : ShapeTexturesHash) (openglContext : ContextPtr) : ShapeTextures :=
  let shapeTextures : ShapeTextures := (shapeTexturesHash openglContext).getD ⟨none, none⟩
  if shapeTextures.high.isNone then
    { high := window.createTextureFromImage T.shapeTextureHigh.data
        T.shapeTextureHigh.width T.shapeTextureHigh.height
      low := window.createTextureFromImage T.shapeTextureLow.data
        T.shapeTextureLow.width T.shapeTextureLow.height }
  else
    shapeTextures

/-- The local `provider` of `updatePaintNode`: `source ? source->textureProvider() : NULL`. -/
def updatePaintNode.provider (F : Flags) (h : Host) (s : UCUbuntuShape) : Option ProviderPtr :=
  (updatePaintNode.source F s).bind h.textureProvider

/-- The item after `updatePaintNode` has updated `sourceTextureProvider_`. -/
def updatePaintNode.item (F : Flags) (h : Host) (s : UCUbuntuShape) : UCUbuntuShape :=
  let provider := updatePaintNode.provider F h s
  if provider ≠ s.sourceTextureProvider_ then
    { s with sourceTextureProvider_ := provider }
  else
    s

/-- The texture data chosen by `updatePaintNode` for the current grid unit. -/
def updatePaintNode.textureData (T : ShapeTextureData) (s : UCUbuntuShape) : TextureData :=
  if s.gridUnit_ > lowHighTextureThreshold then T.shapeTextureHigh else T.shapeTextureLow

/-- The shape texture written to the material by `updatePaintNode`. -/
def updatePaintNode.shapeTexture (shapeTextures : ShapeTextures) (s : UCUbuntuShape) :
    Option TexturePtr :=
  if s.gridUnit_ > lowHighTextureThreshold then shapeTextures.high else shapeTextures.low

/-- The radius and the shape texture filtering computed by `updatePaintNode`. The radius is set
considering the current grid unit and the texture raster grid unit. When the item size is less
than 2 radii, the radius is scaled down. -/
def updatePaintNode.radius (T : ShapeTextureData) (h : Host) (s : UCUbuntuShape) :
    ℚ × Filtering :=
  let textureData := updatePaintNode.textureData T s
  let radius0 :=
    if s.radius_ = Radius.SmallRadius then textureData.smallRadius else textureData.mediumRadius
  let scaleFactor := s.gridUnit_ / textureData.gridUnit
  let radius1 := if scaleFactor ≠ 1 then radius0 * scaleFactor else radius0
  let filtering1 := if scaleFactor ≠ 1 then Filtering.Linear else Filtering.Nearest
  let geometryWidth := h.width
  let geometryHeight := h.height
  let halfMinWidthHeight := qMin geometryWidth geometryHeight * (1 / 2)
  if radius1 > halfMinWidthHeight then
    (halfMinWidthHeight, Filtering.Linear)
  else
    (radius1, filtering1)

/-- The step "Update background material data" of `updatePaintNode`. -/
def updatePaintNode.background (F : Flags) (s : UCUbuntuShape) (materialData : Data) : Data :=
  if s.flags_ &&& F.BackgroundApiSetFlag ≠ 0 then
    -- BackgroundApiSetFlag is flagged as soon as one of the background property API is set. It
    -- allows to keep the support for the deprecated color and gradientColor properties.
    let color :=
      if s.backgroundMode_ = BackgroundMode.BackgroundColor then s.backgroundColor_
      else s.secondaryBackgroundColor_
    { materialData with
      backgroundColor := premultiplied s.backgroundColor_
      secondaryBackgroundColor := premultiplied color }
  else
    { materialData with
      backgroundColor := premultiplied s.color_
      secondaryBackgroundColor := premultiplied s.gradientColor_ }

/-- The step "Update image material data" of `updatePaintNode`: the material data and the
value of the local `flags` afterwards. -/
def updatePaintNode.image (h : Host) (provider : Option ProviderPtr) (materialData : Data) :
    Data × Nat :=
  match provider.bind h.texture with
  | some texture =>
    let subRect := texture.normalizedTextureSubRect
    ({ materialData with
       sourceTextureProvider := provider
       atlasTransform :=
         [ toQuint16 (subRect.width * 0xffff), toQuint16 (subRect.height * 0xffff),
           toQuint16 (subRect.x * 0xffff), toQuint16 (subRect.y * 0xffff) ] },
     0 ||| TexturedFlag)
  | none =>
    ({ materialData with sourceTextureProvider := none, atlasTransform := [0, 0, 0, 0] }, 0)

/-- The step "Update overlay material data" of `updatePaintNode`: the material data and the
value of the local `flags` afterwards. -/
def updatePaintNode.overlay (s : UCUbuntuShape) (materialData : Data) (flags : Nat) :
    Data × Nat :=
  if s.overlayWidth_ ≠ 0 ∧ s.overlayHeight_ ≠ 0 then
    ({ materialData with
       overlayColor := premultiplied s.overlayColor_
       overlaySteps :=
         [ s.overlayX_, s.overlayY_, (s.overlayX_ + s.overlayWidth_) % 65536,
           (s.overlayY_ + s.overlayHeight_) % 65536 ] },
     flags ||| OverlaidFlag)
  else
    -- Overlay data has to be set to 0 so that shapes with different values can be batched
    -- together (ShapeMaterial::compare() uses memcmp()).
    ({ materialData with overlayColor := qRgba 0 0 0 0, overlaySteps := [0, 0, 0, 0] }, flags)

/-- The index into `textureData->coordinate` chosen by `updatePaintNode`. -/
def updatePaintNode.index (s : UCUbuntuShape) : Nat :=
  let index : Nat :=
    if s.border_ = Border.RawBorder then 0
    else if s.border_ = Border.IdleBorder then 1 else 2
  if s.radius_ = Radius.SmallRadius then index + 3 else index

/-- The node `updatePaintNode` returns when there is an OpenGL context. -/
def updatePaintNode.node (F : Flags) (T : ShapeTextureData) (h : Host)
    (shapeTextures : ShapeTextures) (s : UCUbuntuShape) (old_node : Option ShapeNode) :
    ShapeNode :=
  let node : ShapeNode := old_node.getD ShapeNode.new
  let s1 := updatePaintNode.item F h s
  let m1 : Data :=
    { node.material with
      shapeTexture := updatePaintNode.shapeTexture shapeTextures s1
      shapeTextureFiltering := (updatePaintNode.radius T h s1).2 }
  let m2 := updatePaintNode.background F s1 m1
  let m3 := updatePaintNode.image h (updatePaintNode.provider F h s) m2
  let m4 := updatePaintNode.overlay s1 m3.1 m3.2
  let m5 : Data := { m4.1 with flags := m4.2 }
  -- Update vertices and material.
  let vertices :=
    setVertices h h.width h.height (updatePaintNode.radius T h s1).1
      (updatePaintNode.source F s) (decide (s1.flags_ &&& F.StretchedFlag ≠ 0))
      s1.hAlignment_ s1.vAlignment_
      ((updatePaintNode.textureData T s1).coordinate (updatePaintNode.index s1))
  { material := m5, vertices := vertices }

/-- The function `UCUbuntuShape::updatePaintNode`: the node returned (`none` for `NULL`), the
item afterwards and the texture table afterwards. -/
def updatePaintNode (F : Flags) (T : ShapeTextureData) (h : Host)
    (shapeTexturesHash : ShapeTexturesHash) (s : UCUbuntuShape) (old_node : Option ShapeNode) :
    Option ShapeNode × UCUbuntuShape × ShapeTexturesHash :=
  -- OpenGL allocates textures per context, so we store textures reused by all shape instances
  -- per context as well.
  match h.window with
  | none => (none, s, shapeTexturesHash)
  | some window =>
    match window.openglContext with
    | none => (none, s, shapeTexturesHash)
    | some openglContext =>
      let shapeTextures :=
        updatePaintNode.shapeTextures T window shapeTexturesHash openglContext
      (some (updatePaintNode.node F T h shapeTextures s old_node),
        updatePaintNode.item F h s,
        Function.update shapeTexturesHash openglContext (some shapeTextures))

/-! ## Sequences of calls -/

/-- One call on the item: a property setter, a slot, or a paint-node update, with its
arguments and, where the call reads the host, the host snapshot it runs against. -/
inductive Call where
  | setColor (color : QColor)
  | setGradientColor (gradientColor : QColor)
  | setRadius (radius : String)
  | setBorderSource (borderSource : String)
  | setSource (source : QVariant)
  | setOverlayGeometry (overlayGeometry : QRectF)
  | setOverlayColor (overlayColor : QColor)
  | setBackgroundColor (backgroundColor : QColor)
  | setSecondaryBackgroundColor (secondaryBackgroundColor : QColor)
  | setBackgroundMode (backgroundMode : BackgroundMode)
  | setImage (h : Host) (image : QVariant)
  | setStretched (stretched : Bool)
  | setHorizontalAlignment (hAlignment : HAlignment)
  | setVerticalAlignment (vAlignment : VAlignment)
  | onImagePropertiesChanged (h : Host) (sender : ItemPtr)
  | gridUnitChanged (h : Host)
  | providerDestroyed
  | updatePaintNode (T : ShapeTextureData) (h : Host) (shapeTexturesHash : ShapeTexturesHash)
      (old_node : Option ShapeNode)

/-- The item after one call. -/
def Call.apply (F : Flags) (s : UCUbuntuShape) : Call → UCUbuntuShape
  | .setColor c => s.setColor F c
  | .setGradientColor c => s.setGradientColor F c
  | .setRadius r => s.setRadius r
  | .setBorderSource b => s.setBorderSource b
  | .setSource v => s.setSource F v
  | .setOverlayGeometry g => s.setOverlayGeometry g
  | .setOverlayColor c => s.setOverlayColor c
  | .setBackgroundColor c => s.setBackgroundColor F c
  | .setSecondaryBackgroundColor c => s.setSecondaryBackgroundColor F c
  | .setBackgroundMode m => s.setBackgroundMode F m
  | .setImage h v => s.setImage F h v
  | .setStretched b => s.setStretched F b
  | .setHorizontalAlignment a => s.setHorizontalAlignment a
  | .setVerticalAlignment a => s.setVerticalAlignment a
  | .onImagePropertiesChanged h p => s.onImagePropertiesChanged F h p
  | .gridUnitChanged h => s.gridUnitChanged h
  | .providerDestroyed => s.providerDestroyed
  | .updatePaintNode T h hash old_node => (UbuntuShape.updatePaintNode F T h hash s old_node).2.1

/-- The item after a sequence of calls, first call first. -/
def run (F : Flags) (s : UCUbuntuShape) (calls : List Call) : UCUbuntuShape :=
  calls.foldl (Call.apply F) s

/-- Whether the call is `setGradientColor`. -/
def Call.isSetGradientColor : Call → Bool
  | .setGradientColor _ => true
  | _ => false

/-- Whether the call is one of `setBackgroundColor`, `setSecondaryBackgroundColor`,
`setBackgroundMode`. -/
def Call.isSetBackground : Call → Bool
  | .setBackgroundColor _ => true
  | .setSecondaryBackgroundColor _ => true
  | .setBackgroundMode _ => true
  | _ => false

/-- The flag mask a call may set (zero when it sets none). -/
def Call.mask (F : Flags) : Call → Nat
  | .setGradientColor _ => F.GradientColorSetFlag
  | .setSource _ => F.SourceApiSetFlag
  | .setBackgroundColor _ => F.BackgroundApiSetFlag
  | .setSecondaryBackgroundColor _ => F.BackgroundApiSetFlag
  | .setBackgroundMode _ => F.BackgroundApiSetFlag
  | _ => 0

/-- A host without a window, with an 8 pixel grid unit and a 100 by 50 item. -/
def Host.windowless : Host :=
  { window := none
    width := 100
    height := 50
    gridUnit := 8
    property := fun _ _ => 0
    textureProvider := fun _ => none
    texture := fun _ => none }

/-- A host whose window has OpenGL context 1 and creates texture 10 from any image; the item
is 100 by 50 with an 8 pixel grid unit, item 7 has texture provider 3, whose texture is 200 by
50. -/
def Host.windowed : Host :=
  { window := some { openglContext := some 1, createTextureFromImage := fun _ _ _ => some 10 }
    width := 100
    height := 50
    gridUnit := 8
    property := fun _ _ => 0
    textureProvider := fun p => if p = 7 then some 3 else none
    texture := fun p =>
      if p = 3 then some { textureSize := (200, 50), normalizedTextureSubRect := ⟨0, 0, 1, 1⟩ }
      else none }

/-- Shape texture data with empty images, radii 4 and 6 at grid unit 8 (low) and 9 and 13 at
grid unit 18 (high), and all shape coordinates zero. -/
def ShapeTextureData.sample : ShapeTextureData :=
  { shapeTextureHigh :=
      { data := [], width := 0, height := 0, smallRadius := 9, mediumRadius := 13
        gridUnit := 18, coordinate := fun _ _ => (0, 0) }
    shapeTextureLow :=
      { data := [], width := 0, height := 0, smallRadius := 4, mediumRadius := 6
        gridUnit := 8, coordinate := fun _ _ => (0, 0) } }

/-- The column positions of the mesh: `(0, radius, width - radius, width)`. -/
def meshXs (width radius : ℚ) : Fin 4 → ℚ
  | 0 => 0
  | 1 => radius
  | 2 => width - radius
  | 3 => width

/-- The row positions of the mesh: `(0, radius, height - radius, height)`. -/
def meshYs (height radius : ℚ) : Fin 4 → ℚ
  | 0 => 0
  | 1 => radius
  | 2 => height - radius
  | 3 => height

/-! ## Bit masks -/

theorem and_eq_zero_iff_testBit (a b : Nat) :
    a &&& b = 0 ↔ ∀ i, ¬ (a.testBit i = true ∧ b.testBit i = true) := by
  constructor
  · intro h i hi
    have := congrArg (fun n => n.testBit i) h
    simp [Nat.testBit_and, hi.1, hi.2] at this
  · intro h
    apply Nat.eq_of_testBit_eq
    intro i
    have := h i
    simp only [Nat.testBit_and, Nat.zero_testBit]
    cases ha : a.testBit i <;> cases hb : b.testBit i <;> simp_all

theorem or_and_eq_zero {f m g : Nat} (hf : f &&& g = 0) (hm : m &&& g = 0) :
    (f ||| m) &&& g = 0 := by
  rw [and_eq_zero_iff_testBit] at *
  intro i
  have h1 := hf i
  have h2 := hm i
  simp only [Nat.testBit_or]
  cases ha : f.testBit i <;> cases hb : m.testBit i <;> cases hc : g.testBit i <;> simp_all

theorem ldiff_and_eq_zero {f g : Nat} (m : Nat) (hf : f &&& g = 0) :
    Nat.ldiff f m &&& g = 0 := by
  rw [and_eq_zero_iff_testBit] at *
  intro i
  have h1 := hf i
  simp only [Nat.testBit_ldiff]
  cases ha : f.testBit i <;> cases hb : m.testBit i <;> cases hc : g.testBit i <;> simp_all

theorem or_and_self_ne_zero (f : Nat) {m : Nat} (hm : m ≠ 0) : (f ||| m) &&& m ≠ 0 := by
  have : (f ||| m) &&& m = m := by
    apply Nat.eq_of_testBit_eq
    intro i
    simp only [Nat.testBit_and, Nat.testBit_or]
    cases f.testBit i <;> cases m.testBit i <;> rfl
  rw [this]
  exact hm

/-! ## Colour packing -/

/-- The arithmetic value of `qRgba`: the four components, each reduced to 8 bits, packed as
`0xAARRGGBB`. -/
theorem qRgba_eq (r g b a : Nat) :
    qRgba r g b a = (a % 256) * 16777216 + (r % 256) * 65536 + (g % 256) * 256 + b % 256 := by
  unfold qRgba
  have e255 : (0xff : Nat) = 2 ^ 8 - 1 := by norm_num
  rw [e255, Nat.and_pow_two_sub_one_eq_mod, Nat.and_pow_two_sub_one_eq_mod,
    Nat.and_pow_two_sub_one_eq_mod, Nat.and_pow_two_sub_one_eq_mod]
  have hr : r % 2 ^ 8 < 2 ^ 8 := Nat.mod_lt _ (by norm_num)
  have hg : g % 2 ^ 8 < 2 ^ 8 := Nat.mod_lt _ (by norm_num)
  have hb : b % 2 ^ 8 < 2 ^ 8 := Nat.mod_lt _ (by norm_num)
  simp only [Nat.shiftLeft_eq]
  have h1 : a % 2 ^ 8 * 2 ^ 24 ||| r % 2 ^ 8 * 2 ^ 16 =
      a % 2 ^ 8 * 2 ^ 24 + r % 2 ^ 8 * 2 ^ 16 := by
    have := Nat.mul_add_lt_is_or (i := 24) (b := r % 2 ^ 8 * 2 ^ 16) (by omega) (a % 2 ^ 8)
    rw [Nat.mul_comm (2 ^ 24)] at this
    exact this.symm
  have h2 : (a % 2 ^ 8 * 2 ^ 24 + r % 2 ^ 8 * 2 ^ 16) ||| g % 2 ^ 8 * 2 ^ 8 =
      a % 2 ^ 8 * 2 ^ 24 + r % 2 ^ 8 * 2 ^ 16 + g % 2 ^ 8 * 2 ^ 8 := by
    have := Nat.mul_add_lt_is_or (i := 16) (b := g % 2 ^ 8 * 2 ^ 8) (by omega)
      (a % 2 ^ 8 * 2 ^ 8 + r % 2 ^ 8)
    have e : 2 ^ 16 * (a % 2 ^ 8 * 2 ^ 8 + r % 2 ^ 8) =
        a % 2 ^ 8 * 2 ^ 24 + r % 2 ^ 8 * 2 ^ 16 := by ring
    rw [e] at this
    exact this.symm
  have h3 : (a % 2 ^ 8 * 2 ^ 24 + r % 2 ^ 8 * 2 ^ 16 + g % 2 ^ 8 * 2 ^ 8) ||| b % 2 ^ 8 =
      a % 2 ^ 8 * 2 ^ 24 + r % 2 ^ 8 * 2 ^ 16 + g % 2 ^ 8 * 2 ^ 8 + b % 2 ^ 8 := by
    have := Nat.mul_add_lt_is_or (i := 8) (b := b % 2 ^ 8) hb
      (a % 2 ^ 8 * 2 ^ 16 + r % 2 ^ 8 * 2 ^ 8 + g % 2 ^ 8)
    have e : 2 ^ 8 * (a % 2 ^ 8 * 2 ^ 16 + r % 2 ^ 8 * 2 ^ 8 + g % 2 ^ 8) =
        a % 2 ^ 8 * 2 ^ 24 + r % 2 ^ 8 * 2 ^ 16 + g % 2 ^ 8 * 2 ^ 8 := by ring
    rw [e] at this
    exact this.symm
  rw [h1, h2, h3]
  norm_num

/-- The components of a colour built with `qRgba` from 8-bit components. -/
theorem qRgba_components (r g b a : Nat) (hr : r < 256) (hg : g < 256) (hb : b < 256)
    (ha : a < 256) :
    qAlpha (qRgba r g b a) = a ∧ qRed (qRgba r g b a) = r ∧ qGreen (qRgba r g b a) = g ∧
      qBlue (qRgba r g b a) = b := by
  have e255 : (0xff : Nat) = 2 ^ 8 - 1 := by norm_num
  unfold qAlpha qRed qGreen qBlue
  rw [qRgba_eq, e255]
  simp only [Nat.and_pow_two_sub_one_eq_mod, Nat.shiftRight_eq_div_pow]
  refine ⟨?_, ?_, ?_, ?_⟩ <;> omega

/-- The helper `premultiplied` scales the red, green and blue of a 32-bit colour by its alpha
over 255 and keeps the alpha. -/
theorem premultiplied_components (c : Nat) (hc : c < 2 ^ 32) :
    qAlpha (premultiplied c) = qAlpha c ∧
      qRed (premultiplied c) = qRed c * qAlpha c / 255 ∧
      qGreen (premultiplied c) = qGreen c * qAlpha c / 255 ∧
      qBlue (premultiplied c) = qBlue c * qAlpha c / 255 := by
  have e255 : (0xff : Nat) = 2 ^ 8 - 1 := by norm_num
  have hc32 : c < 4294967296 := lt_of_lt_of_eq hc (by norm_num)
  have ha : qAlpha c < 256 := by
    unfold qAlpha
    rw [Nat.shiftRight_eq_div_pow, show (2 : Nat) ^ 24 = 16777216 by norm_num]
    omega
  have hr : qRed c < 256 := by
    unfold qRed
    rw [e255, Nat.and_pow_two_sub_one_eq_mod]
    omega
  have hg : qGreen c < 256 := by
    unfold qGreen
    rw [e255, Nat.and_pow_two_sub_one_eq_mod]
    omega
  have hb : qBlue c < 256 := by
    unfold qBlue
    rw [e255, Nat.and_pow_two_sub_one_eq_mod]
    omega
  have bound : ∀ x : Nat, x < 256 → x * qAlpha c / 255 < 256 := by
    intro x hx
    have : x * qAlpha c ≤ 255 * 255 := Nat.mul_le_mul (by omega) (by omega)
    omega
  unfold premultiplied
  exact qRgba_components _ _ _ _ (bound _ hr) (bound _ hg) (bound _ hb) ha

/-! ## Frame lemmas for the setters -/

theorem setStretched_flags (F : Flags) (s : UCUbuntuShape) (b : Bool) {g : Nat}
    (hS : F.StretchedFlag &&& g = 0) (h : s.flags_ &&& g = 0) :
    (s.setStretched F b).flags_ &&& g = 0 := by
  unfold UCUbuntuShape.setStretched
  split_ifs
  · exact or_and_eq_zero h hS
  · exact ldiff_and_eq_zero _ h
  · exact h

theorem setStretched_colors (F : Flags) (s : UCUbuntuShape) (b : Bool) :
    (s.setStretched F b).color_ = s.color_ ∧
      (s.setStretched F b).gradientColor_ = s.gradientColor_ := by
  unfold UCUbuntuShape.setStretched
  split_ifs <;> exact ⟨rfl, rfl⟩

theorem updateFromImageProperties_flags (F : Flags) (h : Host) (s : UCUbuntuShape) (p : ItemPtr)
    {g : Nat} (hS : F.StretchedFlag &&& g = 0) (hs : s.flags_ &&& g = 0) :
    (s.updateFromImageProperties F h p).flags_ &&& g = 0 := by
  unfold UCUbuntuShape.updateFromImageProperties UCUbuntuShape.setVerticalAlignment
    UCUbuntuShape.setHorizontalAlignment
  have h1 := setStretched_flags F s false hS hs
  have h2 := setStretched_flags F s true hS hs
  dsimp only
  split_ifs <;> assumption

theorem updateFromImageProperties_colors (F : Flags) (h : Host) (s : UCUbuntuShape)
    (p : ItemPtr) :
    (s.updateFromImageProperties F h p).color_ = s.color_ ∧
      (s.updateFromImageProperties F h p).gradientColor_ = s.gradientColor_ := by
  unfold UCUbuntuShape.updateFromImageProperties UCUbuntuShape.setVerticalAlignment
    UCUbuntuShape.setHorizontalAlignment
  have h1 := setStretched_colors F s false
  have h2 := setStretched_colors F s true
  dsimp only
  split_ifs <;> assumption

theorem setImage_flags (F : Flags) (h : Host) (s : UCUbuntuShape) (v : QVariant)
    {g : Nat} (hS : F.StretchedFlag &&& g = 0) (hs : s.flags_ &&& g = 0) :
    (s.setImage F h v).flags_ &&& g = 0 := by
  unfold UCUbuntuShape.setImage
  dsimp only
  split_ifs
  · exact hs
  · cases v.toQuickItem with
    | none => exact hs
    | some p => exact updateFromImageProperties_flags F h s p hS hs
  · exact hs

theorem setImage_colors (F : Flags) (h : Host) (s : UCUbuntuShape) (v : QVariant) :
    (s.setImage F h v).color_ = s.color_ ∧
      (s.setImage F h v).gradientColor_ = s.gradientColor_ := by
  unfold UCUbuntuShape.setImage
  dsimp only
  split_ifs
  · exact ⟨rfl, rfl⟩
  · cases v.toQuickItem with
    | none => exact ⟨rfl, rfl⟩
    | some p => exact updateFromImageProperties_colors F h s p
  · exact ⟨rfl, rfl⟩

theorem updatePaintNode_item (F : Flags) (T : ShapeTextureData) (h : Host)
    (hash : ShapeTexturesHash) (s : UCUbuntuShape) (old_node : Option ShapeNode) :
    (updatePaintNode F T h hash s old_node).2.1 = s ∨
      (updatePaintNode F T h hash s old_node).2.1 = updatePaintNode.item F h s := by
  unfold updatePaintNode
  cases h.window with
  | none => exact Or.inl rfl
  | some w =>
    dsimp only
    cases w.openglContext with
    | none => exact Or.inl rfl
    | some ctx => exact Or.inr rfl

theorem updatePaintNode_item_fields (F : Flags) (h : Host) (s : UCUbuntuShape) :
    (updatePaintNode.item F h s).flags_ = s.flags_ ∧
      (updatePaintNode.item F h s).color_ = s.color_ ∧
      (updatePaintNode.item F h s).gradientColor_ = s.gradientColor_ := by
  unfold updatePaintNode.item
  dsimp only
  split_ifs <;> exact ⟨rfl, rfl, rfl⟩

theorem Call.apply_flags (F : Flags) (s : UCUbuntuShape) (c : Call) {g : Nat}
    (hS : F.StretchedFlag &&& g = 0) (hc : c.mask F &&& g = 0) (hs : s.flags_ &&& g = 0) :
    (c.apply F s).flags_ &&& g = 0 := by
  cases c <;> simp only [Call.apply, Call.mask] at hc ⊢
  case setColor c =>
    unfold UCUbuntuShape.setColor
    dsimp only
    split_ifs <;> exact hs
  case setGradientColor c =>
    unfold UCUbuntuShape.setGradientColor
    dsimp only
    split_ifs <;> exact or_and_eq_zero hs hc
  case setRadius r =>
    unfold UCUbuntuShape.setRadius
    split_ifs <;> exact hs
  case setBorderSource r =>
    unfold UCUbuntuShape.setBorderSource
    dsimp only
    split_ifs <;> exact hs
  case setSource r =>
    unfold UCUbuntuShape.setSource UCUbuntuShape.dropImageSupport
    dsimp only
    split_ifs
    · exact or_and_eq_zero hs hc
    · exact or_and_eq_zero hs hc
    · exact hs
  case setOverlayGeometry r =>
    unfold UCUbuntuShape.setOverlayGeometry
    dsimp only
    split_ifs <;> exact hs
  case setOverlayColor r =>
    unfold UCUbuntuShape.setOverlayColor
    dsimp only
    split_ifs <;> exact hs
  case setBackgroundColor r =>
    unfold UCUbuntuShape.setBackgroundColor
    dsimp only
    split_ifs <;> exact or_and_eq_zero hs hc
  case setSecondaryBackgroundColor r =>
    unfold UCUbuntuShape.setSecondaryBackgroundColor
    dsimp only
    split_ifs <;> exact or_and_eq_zero hs hc
  case setBackgroundMode r =>
    unfold UCUbuntuShape.setBackgroundMode
    dsimp only
    split_ifs <;> exact or_and_eq_zero hs hc
  case setImage h v => exact setImage_flags F h s v hS hs
  case setStretched b => exact setStretched_flags F s b hS hs
  case setHorizontalAlignment b =>
    unfold UCUbuntuShape.setHorizontalAlignment
    split_ifs <;> exact hs
  case setVerticalAlignment b =>
    unfold UCUbuntuShape.setVerticalAlignment
    split_ifs <;> exact hs
  case onImagePropertiesChanged h p => exact updateFromImageProperties_flags F h s p hS hs
  case gridUnitChanged h => exact hs
  case providerDestroyed => exact hs
  case updatePaintNode T h hash old =>
    rcases updatePaintNode_item F T h hash s old with e | e
    · rw [e]; exact hs
    · rw [e, (updatePaintNode_item_fields F h s).1]; exact hs

theorem Call.apply_gradientColor (F : Flags) (s : UCUbuntuShape) (c : Call)
    (hc : c.isSetGradientColor = false) (hs : s.flags_ &&& F.GradientColorSetFlag = 0)
    (he : s.gradientColor_ = s.color_) :
    (c.apply F s).gradientColor_ = (c.apply F s).color_ := by
  cases c <;> simp only [Call.apply] at hc ⊢
  case setColor c =>
    unfold UCUbuntuShape.setColor
    dsimp only
    split_ifs with a b
    · exact absurd hs b
    · rfl
    · exact he
  case setGradientColor c => exact absurd hc (by simp [Call.isSetGradientColor])
  case setRadius r =>
    unfold UCUbuntuShape.setRadius
    split_ifs <;> exact he
  case setBorderSource r =>
    unfold UCUbuntuShape.setBorderSource
    dsimp only
    split_ifs <;> exact he
  case setSource r =>
    unfold UCUbuntuShape.setSource UCUbuntuShape.dropImageSupport
    dsimp only
    split_ifs <;> exact he
  case setOverlayGeometry r =>
    unfold UCUbuntuShape.setOverlayGeometry
    dsimp only
    split_ifs <;> exact he
  case setOverlayColor r =>
    unfold UCUbuntuShape.setOverlayColor
    dsimp only
    split_ifs <;> exact he
  case setBackgroundColor r =>
    unfold UCUbuntuShape.setBackgroundColor
    dsimp only
    split_ifs <;> exact he
  case setSecondaryBackgroundColor r =>
    unfold UCUbuntuShape.setSecondaryBackgroundColor
    dsimp only
    split_ifs <;> exact he
  case setBackgroundMode r =>
    unfold UCUbuntuShape.setBackgroundMode
    dsimp only
    split_ifs <;> exact he
  case setImage h v =>
    obtain ⟨a, b⟩ := setImage_colors F h s v
    rw [a, b]; exact he
  case setStretched b =>
    obtain ⟨a, b⟩ := setStretched_colors F s b
    rw [a, b]; exact he
  case setHorizontalAlignment b =>
    unfold UCUbuntuShape.setHorizontalAlignment
    split_ifs <;> exact he
  case setVerticalAlignment b =>
    unfold UCUbuntuShape.setVerticalAlignment
    split_ifs <;> exact he
  case onImagePropertiesChanged h p =>
    obtain ⟨a, b⟩ := updateFromImageProperties_colors F h s p
    unfold UCUbuntuShape.onImagePropertiesChanged
    rw [a, b]; exact he
  case gridUnitChanged h => exact he
  case providerDestroyed => exact he
  case updatePaintNode T h hash old =>
    rcases updatePaintNode_item F T h hash s old with e | e
    · rw [e]; exact he
    · obtain ⟨_, b, c⟩ := updatePaintNode_item_fields F h s
      rw [e, b, c]; exact he

theorem Call.mask_and_gradient (F : Flags) (hF : F.Valid) (c : Call)
    (hc : c.isSetGradientColor = false) : c.mask F &&& F.GradientColorSetFlag = 0 := by
  obtain ⟨-, -, -, -, -, hGB, hGA, -, -, -⟩ := hF
  rw [Nat.and_comm] at hGB hGA
  cases c <;> simp only [Call.mask, Nat.zero_and] <;>
    first
      | assumption
      | exact absurd hc (by simp [Call.isSetGradientColor])

theorem Call.mask_and_background (F : Flags) (hF : F.Valid) (c : Call)
    (hc : c.isSetBackground = false) : c.mask F &&& F.BackgroundApiSetFlag = 0 := by
  obtain ⟨-, -, -, -, -, hGB, -, -, -, hBA⟩ := hF
  rw [Nat.and_comm] at hBA
  cases c <;> simp only [Call.mask, Nat.zero_and] <;>
    first
      | assumption
      | exact absurd hc (by simp [Call.isSetBackground])

theorem run_gradientColor (F : Flags) (hF : F.Valid) (calls : List Call) :
    ∀ s : UCUbuntuShape, (∀ c ∈ calls, c.isSetGradientColor = false) →
      s.flags_ &&& F.GradientColorSetFlag = 0 → s.gradientColor_ = s.color_ →
      (run F s calls).flags_ &&& F.GradientColorSetFlag = 0 ∧
        (run F s calls).gradientColor_ = (run F s calls).color_ := by
  induction calls with
  | nil => intro s _ h1 h2; exact ⟨h1, h2⟩
  | cons c cs ih =>
    intro s hc h1 h2
    have hc0 := hc c (List.mem_cons_self c cs)
    have hS : F.StretchedFlag &&& F.GradientColorSetFlag = 0 := by
      rw [Nat.and_comm]; exact hF.2.2.2.2.1
    exact ih (c.apply F s) (fun d hd => hc d (List.mem_cons_of_mem c hd))
      (Call.apply_flags F s c hS (Call.mask_and_gradient F hF c hc0) h1)
      (Call.apply_gradientColor F s c hc0 h1 h2)

theorem run_background (F : Flags) (hF : F.Valid) (calls : List Call) :
    ∀ s : UCUbuntuShape, (∀ c ∈ calls, c.isSetBackground = false) →
      s.flags_ &&& F.BackgroundApiSetFlag = 0 →
      (run F s calls).flags_ &&& F.BackgroundApiSetFlag = 0 := by
  induction calls with
  | nil => intro s _ h1; exact h1
  | cons c cs ih =>
    intro s hc h1
    have hc0 := hc c (List.mem_cons_self c cs)
    exact ih (c.apply F s) (fun d hd => hc d (List.mem_cons_of_mem c hd))
      (Call.apply_flags F s c hF.2.2.2.2.2.2.2.1 (Call.mask_and_background F hF c hc0) h1)

/-! ## The colours written by the paint node -/

theorem updatePaintNode.image_colors (h : Host) (provider : Option ProviderPtr) (m : Data) :
    (updatePaintNode.image h provider m).1.backgroundColor = m.backgroundColor ∧
      (updatePaintNode.image h provider m).1.secondaryBackgroundColor =
        m.secondaryBackgroundColor := by
  unfold updatePaintNode.image
  split <;> exact ⟨rfl, rfl⟩

theorem updatePaintNode.overlay_colors (s : UCUbuntuShape) (m : Data) (flags : Nat) :
    (updatePaintNode.overlay s m flags).1.backgroundColor = m.backgroundColor ∧
      (updatePaintNode.overlay s m flags).1.secondaryBackgroundColor =
        m.secondaryBackgroundColor := by
  unfold updatePaintNode.overlay
  split_ifs <;> exact ⟨rfl, rfl⟩

theorem updatePaintNode.item_background (F : Flags) (h : Host) (s : UCUbuntuShape) (m : Data) :
    updatePaintNode.background F (updatePaintNode.item F h s) m =
      updatePaintNode.background F s m := by
  unfold updatePaintNode.item
  dsimp only
  split_ifs <;> rfl

/-- The two background colours of the node are those written by the background step. -/
theorem updatePaintNode.node_colors (F : Flags) (T : ShapeTextureData) (h : Host)
    (shapeTextures : ShapeTextures) (s : UCUbuntuShape) (old_node : Option ShapeNode)
    (m : Data) :
    (updatePaintNode.node F T h shapeTextures s old_node).material.backgroundColor =
        (updatePaintNode.background F s m).backgroundColor ∧
      (updatePaintNode.node F T h shapeTextures s old_node).material.secondaryBackgroundColor =
        (updatePaintNode.background F s m).secondaryBackgroundColor := by
  unfold updatePaintNode.node
  dsimp only
  rw [(updatePaintNode.overlay_colors _ _ _).1, (updatePaintNode.overlay_colors _ _ _).2,
    (updatePaintNode.image_colors _ _ _).1, (updatePaintNode.image_colors _ _ _).2,
    updatePaintNode.item_background]
  unfold updatePaintNode.background
  split_ifs <;> exact ⟨rfl, rfl⟩

/-- With an OpenGL context, `updatePaintNode` returns the node of `updatePaintNode.node`. -/
theorem updatePaintNode_context (F : Flags) (T : ShapeTextureData) (h : Host)
    (hash : ShapeTexturesHash) (s : UCUbuntuShape) (old_node : Option ShapeNode)
    (window : QQuickWindow) (openglContext : ContextPtr) (hw : h.window = some window)
    (hc : window.openglContext = some openglContext) :
    (updatePaintNode F T h hash s old_node).1 =
      some (updatePaintNode.node F T h
        (updatePaintNode.shapeTextures T window hash openglContext) s old_node) := by
  unfold updatePaintNode
  rw [hw]
  dsimp only
  rw [hc]

/-! ## Deprecated colour properties -/

/-- C1: in every state reached from a freshly constructed shape by a sequence of calls without
`setGradientColor`, `gradientColor_` equals `color_`. -/
theorem gradientColor_eq_color_unless_set (F : Flags) (hF : F.Valid) (h : Host)
    (calls : List Call) (hc : ∀ c ∈ calls, c.isSetGradientColor = false) :
    (run F (UCUbuntuShape.init F h) calls).gradientColor_ =
      (run F (UCUbuntuShape.init F h) calls).color_ := by
  have hS : F.StretchedFlag &&& F.GradientColorSetFlag = 0 := by
    rw [Nat.and_comm]; exact hF.2.2.2.2.1
  exact (run_gradientColor F hF calls (UCUbuntuShape.init F h) hc hS rfl).2

theorem gradientColor_eq_color_unless_set_witness :
    Flags.bits.Valid ∧
    (run Flags.bits (UCUbuntuShape.init Flags.bits Host.windowless)
        [Call.setColor ⟨255, 128, 0, 255⟩, Call.setBackgroundColor ⟨0, 0, 255, 255⟩,
          Call.setStretched false, Call.setColor ⟨1, 2, 3, 4⟩]).gradientColor_ =
      (run Flags.bits (UCUbuntuShape.init Flags.bits Host.windowless)
        [Call.setColor ⟨255, 128, 0, 255⟩, Call.setBackgroundColor ⟨0, 0, 255, 255⟩,
          Call.setStretched false, Call.setColor ⟨1, 2, 3, 4⟩]).color_ :=
  ⟨by decide, gradientColor_eq_color_unless_set Flags.bits (by decide) Host.windowless _
    (by decide)⟩

/-- C2: in every state reached from a freshly constructed shape without `setGradientColor`,
`setBackgroundColor`, `setSecondaryBackgroundColor` or `setBackgroundMode`, `updatePaintNode`
with an OpenGL context returns a node whose material has `backgroundColor` and
`secondaryBackgroundColor` both equal to `color_` premultiplied by its alpha. -/
theorem single_color_fill (F : Flags) (hF : F.Valid) (T : ShapeTextureData) (h0 : Host)
    (calls : List Call)
    (hc : ∀ c ∈ calls, c.isSetGradientColor = false ∧ c.isSetBackground = false)
    (h : Host) (hash : ShapeTexturesHash) (old_node : Option ShapeNode)
    (window : QQuickWindow) (openglContext : ContextPtr) (hw : h.window = some window)
    (hctx : window.openglContext = some openglContext) :
    ∃ node,
      (updatePaintNode F T h hash (run F (UCUbuntuShape.init F h0) calls) old_node).1 =
        some node ∧
      node.material.backgroundColor =
        premultiplied (run F (UCUbuntuShape.init F h0) calls).color_ ∧
      node.material.secondaryBackgroundColor =
        premultiplied (run F (UCUbuntuShape.init F h0) calls).color_ := by
  have hG : F.StretchedFlag &&& F.GradientColorSetFlag = 0 := by
    rw [Nat.and_comm]; exact hF.2.2.2.2.1
  have h1 := run_gradientColor F hF calls (UCUbuntuShape.init F h0)
    (fun c hcm => (hc c hcm).1) hG rfl
  have h2 := run_background F hF calls (UCUbuntuShape.init F h0)
    (fun c hcm => (hc c hcm).2) hF.2.2.2.2.2.2.2.1
  refine ⟨_, updatePaintNode_context F T h hash _ old_node window openglContext hw hctx, ?_, ?_⟩
  · rw [(updatePaintNode.node_colors F T h _ _ old_node ShapeNode.new.material).1]
    unfold updatePaintNode.background
    rw [if_neg (by rw [h2]; exact fun hne => hne rfl)]
  · rw [(updatePaintNode.node_colors F T h _ _ old_node ShapeNode.new.material).2]
    unfold updatePaintNode.background
    rw [if_neg (by rw [h2]; exact fun hne => hne rfl), h1.2]

theorem single_color_fill_witness :
    (∀ c ∈ [Call.setColor ⟨255, 128, 0, 255⟩, Call.setStretched false,
            Call.setImage Host.windowed (QVariant.item 7)],
        c.isSetGradientColor = false ∧ c.isSetBackground = false) ∧
    ∃ node,
      (updatePaintNode Flags.bits ShapeTextureData.sample Host.windowed (fun _ => none)
        (run Flags.bits (UCUbuntuShape.init Flags.bits Host.windowed)
          [Call.setColor ⟨255, 128, 0, 255⟩, Call.setStretched false,
            Call.setImage Host.windowed (QVariant.item 7)]) none).1 =
        some node ∧
      node.material.backgroundColor =
        premultiplied (run Flags.bits (UCUbuntuShape.init Flags.bits Host.windowed)
          [Call.setColor ⟨255, 128, 0, 255⟩, Call.setStretched false,
            Call.setImage Host.windowed (QVariant.item 7)]).color_ ∧
      node.material.secondaryBackgroundColor =
        premultiplied (run Flags.bits (UCUbuntuShape.init Flags.bits Host.windowed)
          [Call.setColor ⟨255, 128, 0, 255⟩, Call.setStretched false,
            Call.setImage Host.windowed (QVariant.item 7)]).color_ :=
  ⟨by decide,
    single_color_fill Flags.bits (by decide) ShapeTextureData.sample Host.windowed _ (by decide)
      Host.windowed (fun _ => none) none _ 1 rfl rfl⟩

theorem updatePaintNode_colors_congr (F : Flags) (T : ShapeTextureData) (h : Host)
    (hash : ShapeTexturesHash) (old_node : Option ShapeNode) (s1 s2 : UCUbuntuShape)
    (h1 : s1.flags_ &&& F.BackgroundApiSetFlag ≠ 0) (h2 : s2.flags_ &&& F.BackgroundApiSetFlag ≠ 0)
    (hb : s1.backgroundColor_ = s2.backgroundColor_)
    (hs : s1.secondaryBackgroundColor_ = s2.secondaryBackgroundColor_)
    (hm : s1.backgroundMode_ = s2.backgroundMode_) :
    (updatePaintNode F T h hash s1 old_node).1.map
        (fun n => (n.material.backgroundColor, n.material.secondaryBackgroundColor)) =
      (updatePaintNode F T h hash s2 old_node).1.map
        (fun n => (n.material.backgroundColor, n.material.secondaryBackgroundColor)) := by
  unfold updatePaintNode
  cases h.window with
  | none => rfl
  | some w =>
    dsimp only
    cases w.openglContext with
    | none => rfl
    | some ctx =>
      dsimp only [Option.map]
      rw [(updatePaintNode.node_colors F T h _ s1 old_node ShapeNode.new.material).1,
        (updatePaintNode.node_colors F T h _ s1 old_node ShapeNode.new.material).2,
        (updatePaintNode.node_colors F T h _ s2 old_node ShapeNode.new.material).1,
        (updatePaintNode.node_colors F T h _ s2 old_node ShapeNode.new.material).2]
      unfold updatePaintNode.background
      rw [if_pos h1, if_pos h2, hb, hs, hm]

theorem Call.apply_setBackground (F : Flags) (hB : F.BackgroundApiSetFlag ≠ 0) (c : Call)
    (hc : c.isSetBackground = true) (s : UCUbuntuShape) (color gradientColor : QRgb) :
    (c.apply F { s with color_ := color, gradientColor_ := gradientColor }).flags_ &&&
        F.BackgroundApiSetFlag ≠ 0 ∧
      (c.apply F { s with color_ := color, gradientColor_ := gradientColor }).backgroundColor_ =
        (c.apply F s).backgroundColor_ ∧
      (c.apply F { s with color_ := color, gradientColor_ := gradientColor }).secondaryBackgroundColor_ =
        (c.apply F s).secondaryBackgroundColor_ ∧
      (c.apply F { s with color_ := color, gradientColor_ := gradientColor }).backgroundMode_ =
        (c.apply F s).backgroundMode_ := by
  have hne := or_and_self_ne_zero s.flags_ hB
  cases c <;> first
    | (simp [Call.isSetBackground] at hc; done)
    | (simp only [Call.apply, UCUbuntuShape.setBackgroundColor,
        UCUbuntuShape.setSecondaryBackgroundColor, UCUbuntuShape.setBackgroundMode]
       split_ifs <;> exact ⟨hne, rfl, rfl, rfl⟩)

/-- C3: after `setBackgroundColor`, `setSecondaryBackgroundColor` or `setBackgroundMode` with any
argument, two items that differ only in `color_` and `gradientColor_` make `updatePaintNode`
write the same material `backgroundColor` and `secondaryBackgroundColor`. -/
theorem background_api_disables_deprecated_colors (F : Flags) (hF : F.Valid)
    (T : ShapeTextureData) (h : Host) (hash : ShapeTexturesHash) (old_node : Option ShapeNode)
    (c : Call) (hc : c.isSetBackground = true) (s : UCUbuntuShape)
    (color1 gradientColor1 color2 gradientColor2 : QRgb) :
    (updatePaintNode F T h hash
        (c.apply F { s with color_ := color1, gradientColor_ := gradientColor1 }) old_node).1.map
        (fun n => (n.material.backgroundColor, n.material.secondaryBackgroundColor)) =
      (updatePaintNode F T h hash
        (c.apply F { s with color_ := color2, gradientColor_ := gradientColor2 }) old_node).1.map
        (fun n => (n.material.backgroundColor, n.material.secondaryBackgroundColor)) := by
  obtain ⟨a1, b1, c1, d1⟩ := Call.apply_setBackground F hF.2.2.1 c hc s color1 gradientColor1
  obtain ⟨a2, b2, c2, d2⟩ := Call.apply_setBackground F hF.2.2.1 c hc s color2 gradientColor2
  exact updatePaintNode_colors_congr F T h hash old_node _ _ a1 a2 (b1.trans b2.symm)
    (c1.trans c2.symm) (d1.trans d2.symm)

theorem background_api_disables_deprecated_colors_witness :
    Flags.bits.Valid ∧ (Call.setBackgroundMode BackgroundMode.BackgroundColor).isSetBackground = true ∧
    (updatePaintNode Flags.bits ShapeTextureData.sample Host.windowed (fun _ => none)
        ((Call.setBackgroundMode BackgroundMode.BackgroundColor).apply Flags.bits
          { UCUbuntuShape.init Flags.bits Host.windowed with
            color_ := 0xff102030, gradientColor_ := 0xff405060 }) none).1.map
        (fun n => (n.material.backgroundColor, n.material.secondaryBackgroundColor)) =
      (updatePaintNode Flags.bits ShapeTextureData.sample Host.windowed (fun _ => none)
        ((Call.setBackgroundMode BackgroundMode.BackgroundColor).apply Flags.bits
          { UCUbuntuShape.init Flags.bits Host.windowed with
            color_ := 0x00000000, gradientColor_ := 0x80ffffff }) none).1.map
        (fun n => (n.material.backgroundColor, n.material.secondaryBackgroundColor)) :=
  ⟨by decide, rfl,
    background_api_disables_deprecated_colors Flags.bits (by decide) ShapeTextureData.sample
      Host.windowed (fun _ => none) none (Call.setBackgroundMode BackgroundMode.BackgroundColor)
      rfl (UCUbuntuShape.init Flags.bits Host.windowed) 0xff102030 0xff405060 0x00000000
      0x80ffffff⟩

/-- C4: with `BackgroundApiSetFlag` set and an OpenGL context, `updatePaintNode` writes
premultiplied `backgroundColor_` to the material's `backgroundColor`; to
`secondaryBackgroundColor` it writes premultiplied `backgroundColor_` in mode `BackgroundColor`
and premultiplied `secondaryBackgroundColor_` in mode `VerticalGradient`. -/
theorem background_mode_colors (F : Flags) (T : ShapeTextureData) (h : Host)
    (hash : ShapeTexturesHash) (s : UCUbuntuShape) (old_node : Option ShapeNode)
    (window : QQuickWindow) (openglContext : ContextPtr) (hw : h.window = some window)
    (hctx : window.openglContext = some openglContext)
    (hB : s.flags_ &&& F.BackgroundApiSetFlag ≠ 0) :
    ∃ node,
      (updatePaintNode F T h hash s old_node).1 = some node ∧
      node.material.backgroundColor = premultiplied s.backgroundColor_ ∧
      (s.backgroundMode_ = BackgroundMode.BackgroundColor →
        node.material.secondaryBackgroundColor = premultiplied s.backgroundColor_) ∧
      (s.backgroundMode_ = BackgroundMode.VerticalGradient →
        node.material.secondaryBackgroundColor = premultiplied s.secondaryBackgroundColor_) := by
  refine ⟨_, updatePaintNode_context F T h hash s old_node window openglContext hw hctx,
    ?_, ?_, ?_⟩
  · rw [(updatePaintNode.node_colors F T h _ s old_node ShapeNode.new.material).1]
    unfold updatePaintNode.background
    rw [if_pos hB]
  · intro hm
    rw [(updatePaintNode.node_colors F T h _ s old_node ShapeNode.new.material).2]
    unfold updatePaintNode.background
    rw [if_pos hB]
    dsimp only
    rw [if_pos hm]
  · intro hm
    rw [(updatePaintNode.node_colors F T h _ s old_node ShapeNode.new.material).2]
    unfold updatePaintNode.background
    rw [if_pos hB]
    dsimp only
    rw [if_neg (by rw [hm]; decide)]

theorem background_mode_colors_witness :
    ((UCUbuntuShape.init Flags.bits Host.windowed).setBackgroundMode Flags.bits
        BackgroundMode.VerticalGradient).flags_ &&& Flags.bits.BackgroundApiSetFlag ≠ 0 ∧
    ∃ node,
      (updatePaintNode Flags.bits ShapeTextureData.sample Host.windowed (fun _ => none)
        ((UCUbuntuShape.init Flags.bits Host.windowed).setBackgroundMode Flags.bits
          BackgroundMode.VerticalGradient) none).1 = some node ∧
      node.material.backgroundColor =
        premultiplied ((UCUbuntuShape.init Flags.bits Host.windowed).setBackgroundMode
          Flags.bits BackgroundMode.VerticalGradient).backgroundColor_ ∧
      (((UCUbuntuShape.init Flags.bits Host.windowed).setBackgroundMode Flags.bits
          BackgroundMode.VerticalGradient).backgroundMode_ = BackgroundMode.BackgroundColor →
        node.material.secondaryBackgroundColor =
          premultiplied ((UCUbuntuShape.init Flags.bits Host.windowed).setBackgroundMode
            Flags.bits BackgroundMode.VerticalGradient).backgroundColor_) ∧
      (((UCUbuntuShape.init Flags.bits Host.windowed).setBackgroundMode Flags.bits
          BackgroundMode.VerticalGradient).backgroundMode_ = BackgroundMode.VerticalGradient →
        node.material.secondaryBackgroundColor =
          premultiplied ((UCUbuntuShape.init Flags.bits Host.windowed).setBackgroundMode
            Flags.bits BackgroundMode.VerticalGradient).secondaryBackgroundColor_) :=
  ⟨by decide,
    background_mode_colors Flags.bits ShapeTextureData.sample Host.windowed (fun _ => none)
      ((UCUbuntuShape.init Flags.bits Host.windowed).setBackgroundMode Flags.bits
        BackgroundMode.VerticalGradient) none _ 1 rfl rfl (by decide)⟩


/-! ## Missing rendering context -/

/-- C10: when the item has no window, or its window has no OpenGL context, `updatePaintNode`
returns `NULL` and leaves the item and the shape texture table as they were. -/
theorem updatePaintNode_without_context (F : Flags) (T : ShapeTextureData) (h : Host)
    (hash : ShapeTexturesHash) (s : UCUbuntuShape) (old_node : Option ShapeNode)
    (hno : h.window = none ∨ ∃ window, h.window = some window ∧ window.openglContext = none) :
    updatePaintNode F T h hash s old_node = (none, s, hash) := by
  unfold updatePaintNode
  rcases hno with hw | ⟨window, hw, hc⟩
  · rw [hw]
  · rw [hw]
    dsimp only
    rw [hc]

theorem updatePaintNode_without_context_witness :
    updatePaintNode Flags.bits ShapeTextureData.sample Host.windowless (fun _ => none)
        (UCUbuntuShape.init Flags.bits Host.windowless) (some ShapeNode.new) =
      (none, UCUbuntuShape.init Flags.bits Host.windowless, fun _ => none) :=
  updatePaintNode_without_context Flags.bits ShapeTextureData.sample Host.windowless
    (fun _ => none) (UCUbuntuShape.init Flags.bits Host.windowless) (some ShapeNode.new)
    (Or.inl rfl)

/-! ## The source property -/

theorem dropImageSupport_fields (F : Flags) (s : UCUbuntuShape) :
    (s.dropImageSupport F).flags_ = s.flags_ ||| F.SourceApiSetFlag ∧
      (s.dropImageSupport F).image_ = none := by
  unfold UCUbuntuShape.dropImageSupport
  dsimp only
  split_ifs with hi
  · exact ⟨rfl, rfl⟩
  · refine ⟨rfl, ?_⟩
    cases hs : s.image_ with
    | none => rfl
    | some p => rw [hs] at hi; exact absurd rfl hi

/-- When the new source differs from the current one, `setSource` sets `SourceApiSetFlag`,
clears `image_` and makes `updatePaintNode` take its texture from `source_`. -/
theorem setSource_of_ne (F : Flags) (hA : F.SourceApiSetFlag ≠ 0) (s : UCUbuntuShape)
    (source : QVariant) (hne : s.source_ ≠ source.toQuickItem) :
    (s.setSource F source).flags_ &&& F.SourceApiSetFlag ≠ 0 ∧
      (s.setSource F source).image_ = none ∧
      updatePaintNode.source F (s.setSource F source) = (s.setSource F source).source_ := by
  have hf := or_and_self_ne_zero s.flags_ hA
  obtain ⟨h1, h2⟩ := dropImageSupport_fields F s
  have e : s.setSource F source =
      { s.dropImageSupport F with source_ := source.toQuickItem } := by
    unfold UCUbuntuShape.setSource
    dsimp only
    rw [if_pos hne]
  have hflags : (s.setSource F source).flags_ &&& F.SourceApiSetFlag ≠ 0 := by
    rw [e]
    dsimp only
    rw [h1]
    exact hf
  refine ⟨hflags, ?_, ?_⟩
  · rw [e]
    exact h2
  · unfold updatePaintNode.source
    rw [if_pos hflags]

/-- C5 at a failing input: on a fresh shape whose `image` was set to item 7, `setSource` with a
null source leaves `SourceApiSetFlag` unset and `image_` in place, and `updatePaintNode` still
takes its texture from `image_`, not from `source_`. -/
theorem setSource_same_source_keeps_image :
    (((UCUbuntuShape.init Flags.bits Host.windowed).setImage Flags.bits Host.windowed
        (QVariant.item 7)).setSource Flags.bits QVariant.null).flags_ &&&
        Flags.bits.SourceApiSetFlag = 0 ∧
    (((UCUbuntuShape.init Flags.bits Host.windowed).setImage Flags.bits Host.windowed
        (QVariant.item 7)).setSource Flags.bits QVariant.null).image_ = some 7 ∧
    (((UCUbuntuShape.init Flags.bits Host.windowed).setImage Flags.bits Host.windowed
        (QVariant.item 7)).setSource Flags.bits QVariant.null).source_ = none ∧
    updatePaintNode.source Flags.bits
      (((UCUbuntuShape.init Flags.bits Host.windowed).setImage Flags.bits Host.windowed
        (QVariant.item 7)).setSource Flags.bits QVariant.null) = some 7 := by
  decide

/-! ## The overlay rectangle -/

/-- C7: `setVertices` writes `shapeMesh.vertexCount` = 16 vertices laid out as a 4x4 grid: vertex
`4 * r + c` has position `(xs c, ys r)` and the shape coordinate of entry `4 * r + c` of the
table it is given. -/
theorem setVertices_grid (h : Host) (width height radius : ℚ) (source : Option ItemPtr)
    (stretched : Bool) (hAlignment : HAlignment) (vAlignment : VAlignment)
    (shapeCoordinate : Nat → ℚ × ℚ) :
    (setVertices h width height radius source stretched hAlignment vAlignment
        shapeCoordinate).length = shapeMesh.vertexCount ∧
    ∀ r c : Fin 4, ∃ v,
      (setVertices h width height radius source stretched hAlignment vAlignment
          shapeCoordinate)[4 * r.val + c.val]? = some v ∧
        v.position = (meshXs width radius c, meshYs height radius r) ∧
        v.shapeCoordinate = shapeCoordinate (4 * r.val + c.val) := by
  refine ⟨rfl, ?_⟩
  intro r c
  fin_cases r <;> fin_cases c <;> exact ⟨_, rfl, rfl, rfl⟩

theorem factors_bounds (i : Fin 3) : 0 ≤ factors i ∧ factors i ≤ 1 := by
  fin_cases i <;> norm_num [factors]

theorem coordinates_horizontal (h : Host) (width height radius : ℚ) (source : Option ItemPtr)
    (hAlignment : HAlignment) (vAlignment : VAlignment) (texture : QSGTexture)
    (ht : setVertices.texture h source = some texture)
    (hle : width / height ≤ (texture.textureSize.1 : ℚ) / (texture.textureSize.2 : ℚ)) :
    setVertices.coordinates h width height radius source false hAlignment vAlignment =
      { topCoordinate := 0
        bottomCoordinate := 1
        leftCoordinate :=
          (1 - width / height / ((texture.textureSize.1 : ℚ) / (texture.textureSize.2 : ℚ))) *
            factors hAlignment.toFin
        rightCoordinate :=
          1 - (1 - width / height /
              ((texture.textureSize.1 : ℚ) / (texture.textureSize.2 : ℚ))) *
            (1 - factors hAlignment.toFin)
        radiusCoordinateHeight := radius / height
        radiusCoordinateWidth :=
          radius / width *
            (width / height / ((texture.textureSize.1 : ℚ) / (texture.textureSize.2 : ℚ))) } := by
  unfold setVertices.coordinates
  rw [ht]
  dsimp only
  rw [if_pos hle]

theorem coordinates_vertical (h : Host) (width height radius : ℚ) (source : Option ItemPtr)
    (hAlignment : HAlignment) (vAlignment : VAlignment) (texture : QSGTexture)
    (ht : setVertices.texture h source = some texture)
    (hgt : ¬ width / height ≤ (texture.textureSize.1 : ℚ) / (texture.textureSize.2 : ℚ)) :
    setVertices.coordinates h width height radius source false hAlignment vAlignment =
      { topCoordinate :=
          (1 - (texture.textureSize.1 : ℚ) / (texture.textureSize.2 : ℚ) / (width / height)) *
            factors vAlignment.toFin
        bottomCoordinate :=
          1 - (1 - (texture.textureSize.1 : ℚ) / (texture.textureSize.2 : ℚ) /
              (width / height)) *
            (1 - factors vAlignment.toFin)
        leftCoordinate := 0
        rightCoordinate := 1
        radiusCoordinateHeight :=
          radius / height *
            ((texture.textureSize.1 : ℚ) / (texture.textureSize.2 : ℚ) / (width / height))
        radiusCoordinateWidth := radius / width } := by
  unfold setVertices.coordinates
  rw [ht]
  dsimp only
  rw [if_neg hgt]

/-- The quad coordinates of the four corner vertices are the left, right, top and bottom
coordinates computed in the first part of `setVertices`. -/
theorem setVertices_corners (h : Host) (width height radius : ℚ) (source : Option ItemPtr)
    (stretched : Bool) (hAlignment : HAlignment) (vAlignment : VAlignment)
    (shapeCoordinate : Nat → ℚ × ℚ) :
    ((setVertices h width height radius source stretched hAlignment vAlignment
        shapeCoordinate)[0]?.map Vertex.quadCoordinate =
      some ((setVertices.coordinates h width height radius source stretched hAlignment
          vAlignment).leftCoordinate,
        (setVertices.coordinates h width height radius source stretched hAlignment
          vAlignment).topCoordinate)) ∧
    ((setVertices h width height radius source stretched hAlignment vAlignment
        shapeCoordinate)[3]?.map Vertex.quadCoordinate =
      some ((setVertices.coordinates h width height radius source stretched hAlignment
          vAlignment).rightCoordinate,
        (setVertices.coordinates h width height radius source stretched hAlignment
          vAlignment).topCoordinate)) ∧
    ((setVertices h width height radius source stretched hAlignment vAlignment
        shapeCoordinate)[12]?.map Vertex.quadCoordinate =
      some ((setVertices.coordinates h width height radius source stretched hAlignment
          vAlignment).leftCoordinate,
        (setVertices.coordinates h width height radius source stretched hAlignment
          vAlignment).bottomCoordinate)) ∧
    ((setVertices h width height radius source stretched hAlignment vAlignment
        shapeCoordinate)[15]?.map Vertex.quadCoordinate =
      some ((setVertices.coordinates h width height radius source stretched hAlignment
          vAlignment).rightCoordinate,
        (setVertices.coordinates h width height radius source stretched hAlignment
          vAlignment).bottomCoordinate)) :=
  ⟨rfl, rfl, rfl, rfl⟩

/-- C8: in crop mode (not stretched, texture present) with positive item and texture sizes, the
texture region spanned by the quad coordinates of the corner vertices has the aspect ratio of
the item once scaled by the texture size, lies inside the unit square and spans the whole
texture along at least one axis. -/
theorem crop_preserves_aspect_ratio (h : Host) (width height radius : ℚ)
    (source : Option ItemPtr) (hAlignment : HAlignment) (vAlignment : VAlignment)
    (shapeCoordinate : Nat → ℚ × ℚ) (texture : QSGTexture)
    (ht : setVertices.texture h source = some texture) (hw : 0 < width) (hh : 0 < height)
    (hsw : 0 < texture.textureSize.1) (hsh : 0 < texture.textureSize.2) :
    ∃ left top right bottom : ℚ,
      (setVertices h width height radius source false hAlignment vAlignment
          shapeCoordinate)[0]?.map Vertex.quadCoordinate = some (left, top) ∧
      (setVertices h width height radius source false hAlignment vAlignment
          shapeCoordinate)[3]?.map Vertex.quadCoordinate = some (right, top) ∧
      (setVertices h width height radius source false hAlignment vAlignment
          shapeCoordinate)[12]?.map Vertex.quadCoordinate = some (left, bottom) ∧
      (setVertices h width height radius source false hAlignment vAlignment
          shapeCoordinate)[15]?.map Vertex.quadCoordinate = some (right, bottom) ∧
      (right - left) * (texture.textureSize.1 : ℚ) /
          ((bottom - top) * (texture.textureSize.2 : ℚ)) = width / height ∧
      0 ≤ left ∧ left ≤ right ∧ right ≤ 1 ∧ 0 ≤ top ∧ top ≤ bottom ∧ bottom ≤ 1 ∧
      ((left = 0 ∧ right = 1) ∨ (top = 0 ∧ bottom = 1)) := by
  obtain ⟨c0, c3, c12, c15⟩ := setVertices_corners h width height radius source false
    hAlignment vAlignment shapeCoordinate
  refine ⟨_, _, _, _, c0, c3, c12, c15, ?_⟩
  have hsw' : (0 : ℚ) < (texture.textureSize.1 : ℚ) := by exact_mod_cast hsw
  have hsh' : (0 : ℚ) < (texture.textureSize.2 : ℚ) := by exact_mod_cast hsh
  have hS : (0 : ℚ) < (texture.textureSize.1 : ℚ) / (texture.textureSize.2 : ℚ) :=
    div_pos hsw' hsh'
  have hD : (0 : ℚ) < width / height := div_pos hw hh
  by_cases hle : width / height ≤ (texture.textureSize.1 : ℚ) / (texture.textureSize.2 : ℚ)
  · rw [coordinates_horizontal h width height radius source hAlignment vAlignment texture ht hle]
    dsimp only
    obtain ⟨f0, f1⟩ := factors_bounds hAlignment.toFin
    have hin0 : 0 < width / height /
        ((texture.textureSize.1 : ℚ) / (texture.textureSize.2 : ℚ)) := div_pos hD hS
    have hin1 : width / height /
        ((texture.textureSize.1 : ℚ) / (texture.textureSize.2 : ℚ)) ≤ 1 :=
      (div_le_one hS).mpr hle
    refine ⟨?_, ?_, ?_, ?_, le_refl _, zero_le_one, le_refl _, Or.inr ⟨rfl, rfl⟩⟩
    · field_simp
      ring
    · exact mul_nonneg (by linarith) f0
    · nlinarith
    · nlinarith
  · rw [coordinates_vertical h width height radius source hAlignment vAlignment texture ht hle]
    dsimp only
    obtain ⟨f0, f1⟩ := factors_bounds vAlignment.toFin
    have hin0 : 0 < (texture.textureSize.1 : ℚ) / (texture.textureSize.2 : ℚ) /
        (width / height) := div_pos hS hD
    have hin1 : (texture.textureSize.1 : ℚ) / (texture.textureSize.2 : ℚ) /
        (width / height) ≤ 1 :=
      (div_le_one hD).mpr (le_of_lt (not_le.mp hle))
    refine ⟨?_, le_refl _, zero_le_one, le_refl _, ?_, ?_, ?_, Or.inl ⟨rfl, rfl⟩⟩
    · have hne : (1 - (1 - (texture.textureSize.1 : ℚ) / (texture.textureSize.2 : ℚ) /
            (width / height)) * (1 - factors vAlignment.toFin) -
          (1 - (texture.textureSize.1 : ℚ) / (texture.textureSize.2 : ℚ) /
            (width / height)) * factors vAlignment.toFin) =
          (texture.textureSize.1 : ℚ) / (texture.textureSize.2 : ℚ) / (width / height) := by
        ring
      rw [hne]
      field_simp
      ring
    · exact mul_nonneg (by linarith) f0
    · nlinarith
    · nlinarith

theorem crop_preserves_aspect_ratio_witness :
    setVertices.texture Host.windowed (some 7) =
        some { textureSize := (200, 50), normalizedTextureSubRect := ⟨0, 0, 1, 1⟩ } ∧
    (0 : ℚ) < 100 ∧ (0 : ℚ) < 50 ∧ (0 : Int) < 200 ∧ (0 : Int) < 50 ∧
    ∃ left top right bottom : ℚ,
      (setVertices Host.windowed 100 50 4 (some 7) false HAlignment.AlignLeft
          VAlignment.AlignVCenter (fun _ => (0, 0)))[0]?.map Vertex.quadCoordinate =
        some (left, top) ∧
      (setVertices Host.windowed 100 50 4 (some 7) false HAlignment.AlignLeft
          VAlignment.AlignVCenter (fun _ => (0, 0)))[3]?.map Vertex.quadCoordinate =
        some (right, top) ∧
      (setVertices Host.windowed 100 50 4 (some 7) false HAlignment.AlignLeft
          VAlignment.AlignVCenter (fun _ => (0, 0)))[12]?.map Vertex.quadCoordinate =
        some (left, bottom) ∧
      (setVertices Host.windowed 100 50 4 (some 7) false HAlignment.AlignLeft
          VAlignment.AlignVCenter (fun _ => (0, 0)))[15]?.map Vertex.quadCoordinate =
        some (right, bottom) ∧
      (right - left) * ((200 : Int) : ℚ) / ((bottom - top) * ((50 : Int) : ℚ)) = 100 / 50 ∧
      0 ≤ left ∧ left ≤ right ∧ right ≤ 1 ∧ 0 ≤ top ∧ top ≤ bottom ∧ bottom ≤ 1 ∧
      ((left = 0 ∧ right = 1) ∨ (top = 0 ∧ bottom = 1)) :=
  ⟨rfl, by norm_num, by norm_num, by decide, by decide,
    crop_preserves_aspect_ratio Host.windowed 100 50 4 (some 7) HAlignment.AlignLeft
      VAlignment.AlignVCenter (fun _ => (0, 0))
      { textureSize := (200, 50), normalizedTextureSubRect := ⟨0, 0, 1, 1⟩ } rfl
      (by norm_num) (by norm_num) (by decide) (by decide)⟩

end UbuntuShape
